import Mathlib

/-!
Verification of the data-shaping logic of `visualizations/generate_business_charts.py`.

Shallow embedding conventions:
* Numeric dataset cells are embedded as exact rationals (`ℚ`); the decimal
  literals of the source (`0.265`, `0.158`, ...) are written as the exact
  rationals they denote.
* A loaded table is column-oriented: a row count plus named numeric columns,
  mirroring a `pandas.DataFrame` of the csv.
* `pd.cut(col, bins, labels)` with its default `right=True` and
  `include_lowest=False` options labels a value `x` with `labels[i]` when
  `bins[i] < x ≤ bins[i+1]`, and produces a missing value otherwise; this is
  `cutValue` below.
* `np.random.seed(42)` fixes the stream of uniform samples in `[0,1)` that
  `np.random.choice` consumes.  The Mersenne-Twister stream after seeding is
  abstracted as a function parameter `stream : ℕ → ℚ` (sample `i` is
  `stream i`); a fixed seed means the same `stream` on every run.
* Exceptions are embedded with `Except String`; `try/except` blocks become
  matches on the `Except` value.  Console prints and the actual plotting
  calls are represented by an event trace.
-/

namespace BusinessCharts

/-- A loaded tabular dataset: a row count and named numeric columns
(the csv read by `pd.read_csv`). -/
structure Table where
  nRows : ℕ
  cols : List (String × List ℚ)
deriving Repr, DecidableEq

/-- `df[name]` on a numeric column: `KeyError` when the column is absent. -/
def getCol (df : Table) (name : String) : Except String (List ℚ) :=
  match df.cols.lookup name with
  | some c => Except.ok c
  | none => Except.error ("KeyError: " ++ name)

/-- One application of `pd.cut` (default `right=True`, `include_lowest=False`)
to a single value: label `i` is produced when `bins[i] < x ≤ bins[i+1]`,
otherwise the value is left unlabeled (`none`, pandas `NaN`). -/
def cutValue (bins : List ℚ) (labels : List String) (x : ℚ) : Option String :=
  match bins, labels with
  | b0 :: b1 :: bs, l :: ls =>
      if b0 < x ∧ x ≤ b1 then some l else cutValue (b1 :: bs) ls x
  | _, _ => none

/-- Bin edges of `customer_value_tier` (`bins=[0, 100, 200, 300, 600]`). -/
def valueTierBins : List ℚ := [0, 100, 200, 300, 600]

/-- Labels of `customer_value_tier`. -/
def valueTierLabels : List String := ["Basic", "Standard", "Premium", "VIP"]

/-- Bin edges of `activity_level` (`bins=[0, 1, 2, 3, 10]`). -/
def activityBins : List ℚ := [0, 1, 2, 3, 10]

/-- Labels of `activity_level`. -/
def activityLabels : List String := ["Low", "Moderate", "High", "Super Active"]

/-- Bin edges of `tenure_category` (`bins=[0, 3, 6, 12, 50]`). -/
def tenureBins : List ℚ := [0, 3, 6, 12, 50]

/-- Labels of `tenure_category`. -/
def tenureLabels : List String :=
  ["New (0-3m)", "Developing (3-6m)", "Established (6-12m)", "Veteran (12m+)"]

/-- The `cluster_probabilities` dict of the source, in insertion order:
cluster ids `0..4` with their exact weights. -/
def cluster_probabilities : List (ℕ × ℚ) :=
  [(0, 158/1000), (1, 222/1000), (2, 216/1000), (3, 307/1000), (4, 97/1000)]

/-- `list(cluster_probabilities.keys())`. -/
def clusterKeys : List ℕ := cluster_probabilities.map Prod.fst

/-- `list(cluster_probabilities.values())`. -/
def clusterProbs : List ℚ := cluster_probabilities.map Prod.snd

/-- Inverse-cdf selection used by `np.random.choice(p=...)`: for a uniform
sample `u`, pick the least index `i` with `u < p[0] + ... + p[i]`.  When `u`
is at least the total weight, the recursion falls off the end of the list
(numpy clips to the last index; with `u < 1` and total weight `1` this case
is unreachable, as proved below). -/
def weightedPick : List ℚ → ℚ → ℕ
  | [], _ => 0
  | w :: ws, u => if u < w then 0 else weightedPick ws (u - w) + 1

/-- Relative tolerance `np.sqrt(np.finfo(float64).eps)` of the probability
check inside `np.random.choice`: `eps = 2 ^ (-52)`, so `atol = 2 ^ (-26)`. -/
def npAtol : ℚ := 1 / 2 ^ 26

/-- `np.random.choice(keysL, size=n, p=p)` consuming samples
`stream 0, ..., stream (n-1)`: first validates that the weights sum to `1`
within `npAtol`, then draws one key per row by inverse-cdf selection. -/
def npRandomChoice (keysL : List ℕ) (n : ℕ) (p : List ℚ) (stream : ℕ → ℚ) :
    Except String (List ℕ) :=
  if |p.sum - 1| > npAtol then
    Except.error "probabilities do not sum to 1"
  else
    Except.ok ((List.range n).map fun i => keysL.getD (weightedPick p (stream i)) 0)

/-- The `archetype_names` dict: static display name per cluster id. -/
def archetype_names : List (ℕ × String) :=
  [(0, "🤝 Social Connectors"),
   (1, "⚡ Active Independents"),
   (2, "🏆 Premium Loyalists"),
   (3, "🚨 Flight Risks"),
   (4, "🎲 Decision Pending")]

/-- A cell of a derived (appended) column: numeric, categorical, or missing
(pandas `NaN`). -/
inductive Cell where
  | num : ℚ → Cell
  | cat : String → Cell
  | missing : Cell
deriving Repr, DecidableEq

/-- Categorical cell from an optional label. -/
def catCell : Option String → Cell
  | some s => Cell.cat s
  | none => Cell.missing

/-- Result of `load_and_prepare_data` on success: the loaded table (whose
pre-existing columns the deriver does not touch) together with the derived
columns appended to it, in the order the source appends them. -/
structure Prepared where
  base : Table
  added : List (String × List Cell)
deriving Repr, DecidableEq

/-- The derived band columns of `p`, by name, when present. -/
def Prepared.addedCol (p : Prepared) (name : String) : Option (List Cell) :=
  p.added.lookup name

/-- The body of `load_and_prepare_data`'s `try` block.  `loadResult` is the
outcome of `pd.read_csv` (`Except.error` when the file is missing, unreadable
or malformed); each `df[...]` access may raise `KeyError`; the cluster draw
may raise numpy's invalid-probability error.  Any error short-circuits. -/
def prepareResult (stream : ℕ → ℚ) (loadResult : Except String Table) :
    Except String (Prepared × List (ℕ × String)) := do
  let df ← loadResult
  let charges ← getCol df "Avg_additional_charges_total"
  let tier := charges.map (cutValue valueTierBins valueTierLabels)
  let freq ← getCol df "Avg_class_frequency_current_month"
  let act := freq.map (cutValue activityBins activityLabels)
  let life ← getCol df "Lifetime"
  let tenure := life.map (cutValue tenureBins tenureLabels)
  let clusters ← npRandomChoice clusterKeys df.nRows clusterProbs stream
  let arch := clusters.map fun c => archetype_names.lookup c
  Except.ok
    (⟨df,
      [("customer_value_tier", tier.map catCell),
       ("activity_level", act.map catCell),
       ("tenure_category", tenure.map catCell),
       ("Cluster", clusters.map fun (c : ℕ) => Cell.num (c : ℚ)),
       ("Archetype", arch.map catCell)]⟩,
     archetype_names)

/-- `load_and_prepare_data`: the `except` clause catches any failure, prints
an error message and returns the no-data sentinel (`None, None`), embedded
as `none`. -/
def load_and_prepare_data (stream : ℕ → ℚ) (loadResult : Except String Table) :
    Option (Prepared × List (ℕ × String)) :=
  match prepareResult stream loadResult with
  | Except.ok r => some r
  | Except.error _ => none

/-- Closed-left/open-right ("inclusive-left") binning, written from the
spec's wording for comparison with `cutValue`: label `i` is produced when
`bins[i] ≤ x < bins[i+1]`. -/
def cutValueLeftClosed (bins : List ℚ) (labels : List String) (x : ℚ) :
    Option String :=
  match bins, labels with
  | b0 :: b1 :: bs, l :: ls =>
      if b0 ≤ x ∧ x < b1 then some l else cutValueLeftClosed (b1 :: bs) ls x
  | _, _ => none

/-- The uniform samples numpy's seeded generator produces lie in `[0, 1)`. -/
def UniformStream (stream : ℕ → ℚ) : Prop :=
  ∀ i, 0 ≤ stream i ∧ stream i < 1

/-- Console / pipeline events of one run of `main`, in order. -/
inductive Event where
  | loadFailedMsg
  | chart1
  | chart2
  | chart3
  | successMsg
  | errorMsg : String → Event
deriving Repr, DecidableEq

/-- The `try` block of `main` that runs the three chart builders in sequence,
with the single outer `except` that catches a failure of any of them.  The
builders are plotting code; each is abstracted by its outcome
(`Except.error e` when it raises).  Attempting a builder is an event; an
exception skips the remaining builders and is converted by the outer catch
into a console error message. -/
def chartPhase (r1 r2 r3 : Except String Unit) : List Event :=
  Event.chart1 ::
    match r1 with
    | Except.error e => [Event.errorMsg e]
    | Except.ok _ =>
      Event.chart2 ::
        match r2 with
        | Except.error e => [Event.errorMsg e]
        | Except.ok _ =>
          Event.chart3 ::
            match r3 with
            | Except.error e => [Event.errorMsg e]
            | Except.ok _ => [Event.successMsg]

/-- `main`: loads and prepares the data, aborts with a console message when
the loader returned the no-data sentinel, and otherwise runs the chart phase.
It returns its event trace in every case: exceptions never escape, so the
process exit is normal regardless of mid-pipeline failure. -/
def main (stream : ℕ → ℚ) (loadResult : Except String Table)
    (r1 r2 r3 : Except String Unit) : List Event :=
  match load_and_prepare_data stream loadResult with
  | none => [Event.loadFailedMsg]
  | some _ => chartPhase r1 r2 r3

/-- Python's `int()` on a (here always finite) number: truncation toward
zero. -/
def pyInt (q : ℚ) : ℤ :=
  if 0 ≤ q then ⌊q⌋ else -⌊-q⌋

/-- `total_test = 1000` of `create_model_performance_chart`. -/
def total_test : ℤ := 1000

/-- `actual_churn = int(total_test * 0.265)`. -/
def actual_churn : ℤ := pyInt ((total_test : ℚ) * (265/1000))

/-- `predicted_churn = int(actual_churn * 0.819 + (total_test - actual_churn) * 0.132)`. -/
def predicted_churn : ℤ :=
  pyInt ((actual_churn : ℚ) * (819/1000) +
    ((total_test : ℚ) - (actual_churn : ℚ)) * (132/1000))

/-- `true_positive = int(actual_churn * 0.819)`. -/
def true_positive : ℤ := pyInt ((actual_churn : ℚ) * (819/1000))

/-- `false_negative = actual_churn - true_positive`. -/
def false_negative : ℤ := actual_churn - true_positive

/-- `false_positive = predicted_churn - true_positive`. -/
def false_positive : ℤ := predicted_churn - true_positive

/-- `true_negative = total_test - actual_churn - false_positive`. -/
def true_negative : ℤ := total_test - actual_churn - false_positive

/-- The five derived column names, in the order the source appends them. -/
def addedColumnNames : List String :=
  ["customer_value_tier", "activity_level", "tenure_category", "Cluster", "Archetype"]

/-- The cluster id drawn for row `i`: a function of the seeded sample stream
and the fixed weights only. -/
def drawnCluster (stream : ℕ → ℚ) (i : ℕ) : ℕ :=
  clusterKeys.getD (weightedPick clusterProbs (stream i)) 0

/-- A concrete sample stream, constantly `0` (a legal uniform sample). -/
def testStream : ℕ → ℚ := fun _ => 0

/-- A small concrete loaded table with the columns the pipeline reads. -/
def testTable : Table :=
  ⟨2, [("Avg_additional_charges_total", [100, 250]),
       ("Avg_class_frequency_current_month", [2, 10]),
       ("Lifetime", [5, 50]),
       ("Churn", [0, 1]),
       ("Age", [30, 40]),
       ("Contract_period", [1, 12])]⟩

/-- A table with the same row count as `testTable` but different values in
every column, used to exercise feature-independence of the cluster draw. -/
def testTableB : Table :=
  ⟨2, [("Avg_additional_charges_total", [42, 500]),
       ("Avg_class_frequency_current_month", [0, 1]),
       ("Lifetime", [1, 20]),
       ("Churn", [1, 0]),
       ("Age", [99, 18]),
       ("Contract_period", [6, 6])]⟩

/-- `testTable` without its `Lifetime` column. -/
def testTableNoLifetime : Table :=
  ⟨2, [("Avg_additional_charges_total", [100, 250]),
       ("Avg_class_frequency_current_month", [2, 10])]⟩

/-- The prepared result of running the deriver on `testTable` with sample
stream `testStream`. -/
def testPrepared : Prepared :=
  ⟨testTable,
   [("customer_value_tier", [Cell.cat "Basic", Cell.cat "Premium"]),
    ("activity_level", [Cell.cat "Moderate", Cell.cat "Super Active"]),
    ("tenure_category", [Cell.cat "Developing (3-6m)", Cell.cat "Veteran (12m+)"]),
    ("Cluster", [Cell.num 0, Cell.num 0]),
    ("Archetype", [Cell.cat "🤝 Social Connectors", Cell.cat "🤝 Social Connectors"])]⟩

/-- The prepared result of running the deriver on `testTableB` with sample
stream `testStream`. -/
def testPreparedB : Prepared :=
  ⟨testTableB,
   [("customer_value_tier", [Cell.cat "Basic", Cell.cat "VIP"]),
    ("activity_level", [Cell.missing, Cell.cat "Low"]),
    ("tenure_category", [Cell.cat "New (0-3m)", Cell.cat "Veteran (12m+)"]),
    ("Cluster", [Cell.num 0, Cell.num 0]),
    ("Archetype", [Cell.cat "🤝 Social Connectors", Cell.cat "🤝 Social Connectors"])]⟩

/-- Reduction of `Except` bind on a success, as produced by `do`. -/
@[simp] lemma exceptBindOk {α β : Type} (a : α) (f : α → Except String β) :
    (Except.ok a : Except String α) >>= f = f a := rfl

/-- Reduction of `Except` bind on an error, as produced by `do`. -/
@[simp] lemma exceptBindError {α β : Type} (e : String)
    (f : α → Except String β) :
    (Except.error e : Except String α) >>= f = Except.error e := rfl

/-- The weights of `cluster_probabilities` sum to `1` exactly. -/
lemma clusterProbs_sum_eq_one : clusterProbs.sum = 1 := by
  norm_num [clusterProbs, cluster_probabilities]

/-- The validity check of `np.random.choice` passes for the configured
weights, so the draw returns the row-indexed sequence of picks. -/
lemma npRandomChoice_clusterProbs (n : ℕ) (stream : ℕ → ℚ) :
    npRandomChoice clusterKeys n clusterProbs stream =
      Except.ok ((List.range n).map fun i => drawnCluster stream i) := by
  unfold npRandomChoice drawnCluster
  rw [clusterProbs_sum_eq_one, if_neg]
  norm_num [npAtol]

/-- Structure of a successful run of `load_and_prepare_data`: the three
column reads succeeded, the result keeps the loaded table unchanged, and
the five derived columns are appended in source order. -/
lemma prepare_ok_structure (stream : ℕ → ℚ) (lr : Except String Table)
    (p : Prepared) (names : List (ℕ × String))
    (h : load_and_prepare_data stream lr = some (p, names)) :
    ∃ df charges freq life,
      lr = Except.ok df ∧
      getCol df "Avg_additional_charges_total" = Except.ok charges ∧
      getCol df "Avg_class_frequency_current_month" = Except.ok freq ∧
      getCol df "Lifetime" = Except.ok life ∧
      names = archetype_names ∧
      p = ⟨df,
        [("customer_value_tier",
            (charges.map (cutValue valueTierBins valueTierLabels)).map catCell),
         ("activity_level",
            (freq.map (cutValue activityBins activityLabels)).map catCell),
         ("tenure_category",
            (life.map (cutValue tenureBins tenureLabels)).map catCell),
         ("Cluster",
            ((List.range df.nRows).map fun i => drawnCluster stream i).map
              fun (c : ℕ) => Cell.num (c : ℚ)),
         ("Archetype",
            (((List.range df.nRows).map fun i => drawnCluster stream i).map
              fun c => archetype_names.lookup c).map catCell)]⟩ := by
  unfold load_and_prepare_data at h
  cases hpr : prepareResult stream lr with
  | error e => rw [hpr] at h; exact absurd h (by simp)
  | ok r =>
    rw [hpr] at h
    cases lr with
    | error e => exact absurd hpr (by simp [prepareResult])
    | ok df =>
      refine ⟨df, ?_⟩
      cases hc1 : getCol df "Avg_additional_charges_total" with
      | error e => exact absurd hpr (by simp [prepareResult, hc1, Except.bind])
      | ok charges =>
        cases hc2 : getCol df "Avg_class_frequency_current_month" with
        | error e =>
            exact absurd hpr (by simp [prepareResult, hc1, hc2, Except.bind])
        | ok freq =>
          cases hc3 : getCol df "Lifetime" with
          | error e =>
              exact absurd hpr
                (by simp [prepareResult, hc1, hc2, hc3, Except.bind])
          | ok life =>
            refine ⟨charges, freq, life, rfl, rfl, rfl, rfl, ?_⟩
            rw [prepareResult] at hpr
            simp only [exceptBindOk, exceptBindError, hc1, hc2, hc3,
              npRandomChoice_clusterProbs, Except.ok.injEq] at hpr
            have hr : r = (p, names) := by simpa using h
            rw [hr, Prod.mk.injEq] at hpr
            exact ⟨hpr.2.symm, hpr.1.symm⟩

/-- With a constant-zero sample stream the inverse-cdf pick is index `0`. -/
lemma weightedPick_zero : weightedPick clusterProbs 0 = 0 := by
  norm_num [weightedPick, clusterProbs, cluster_probabilities]

/-- Every row of a run with `testStream` is assigned cluster id `0`. -/
lemma drawnCluster_testStream (i : ℕ) : drawnCluster testStream i = 0 := by
  norm_num [drawnCluster, testStream, weightedPick_zero, clusterKeys,
    cluster_probabilities]

/-- Concrete evaluation of the pipeline on `testTable`. -/
lemma load_testTable :
    load_and_prepare_data testStream (Except.ok testTable) =
      some (testPrepared, archetype_names) := by
  rw [load_and_prepare_data, prepareResult]
  simp +decide [getCol, testTable, List.lookup, npRandomChoice_clusterProbs,
    drawnCluster_testStream, cutValue, valueTierBins, valueTierLabels,
    activityBins, activityLabels, tenureBins, tenureLabels, testPrepared,
    catCell, archetype_names, List.range_succ]

/-- Concrete evaluation of the pipeline on `testTableB`. -/
lemma load_testTableB :
    load_and_prepare_data testStream (Except.ok testTableB) =
      some (testPreparedB, archetype_names) := by
  rw [load_and_prepare_data, prepareResult]
  simp +decide [getCol, testTableB, List.lookup, npRandomChoice_clusterProbs,
    drawnCluster_testStream, cutValue, valueTierBins, valueTierLabels,
    activityBins, activityLabels, tenureBins, tenureLabels, testPreparedB,
    catCell, archetype_names, List.range_succ]

/-- `pd.cut` produces one of the supplied labels or a missing value, never
anything else. -/
lemma cutValue_mem :
    ∀ (bins : List ℚ) (labels : List String) (x : ℚ),
      cutValue bins labels x = none ∨
        ∃ l ∈ labels, cutValue bins labels x = some l
  | [], _, _ => Or.inl rfl
  | [_], _, _ => Or.inl rfl
  | _ :: _ :: _, [], _ => Or.inl rfl
  | b0 :: b1 :: bs, l :: ls, x => by
      rw [cutValue]
      by_cases hb : b0 < x ∧ x ≤ b1
      · exact Or.inr ⟨l, List.mem_cons_self l ls, by rw [if_pos hb]⟩
      · rw [if_neg hb]
        rcases cutValue_mem (b1 :: bs) ls x with hn | ⟨l2, hl2, he⟩
        · exact Or.inl hn
        · exact Or.inr ⟨l2, List.mem_cons_of_mem l hl2, he⟩

/-- If every breakpoint is at least `x`, the value stays unlabeled. -/
lemma cutValue_none_of_le (x : ℚ) :
    ∀ (bins : List ℚ) (labels : List String),
      (∀ b ∈ bins, x ≤ b) → cutValue bins labels x = none
  | [], _, _ => rfl
  | [_], _, _ => rfl
  | _ :: _ :: _, [], _ => rfl
  | b0 :: b1 :: bs, l :: ls, h => by
      rw [cutValue, if_neg]
      · exact cutValue_none_of_le x (b1 :: bs) ls
          fun b hb => h b (List.mem_cons_of_mem b0 hb)
      · rintro ⟨h0, _⟩
        exact absurd (h b0 (List.mem_cons_self b0 _)) (not_le.mpr h0)

/-- If every breakpoint is below `x`, the value stays unlabeled. -/
lemma cutValue_none_of_gt (x : ℚ) :
    ∀ (bins : List ℚ) (labels : List String),
      (∀ b ∈ bins, b < x) → cutValue bins labels x = none
  | [], _, _ => rfl
  | [_], _, _ => rfl
  | _ :: _ :: _, [], _ => rfl
  | b0 :: b1 :: bs, l :: ls, h => by
      rw [cutValue, if_neg]
      · exact cutValue_none_of_gt x (b1 :: bs) ls
          fun b hb => h b (List.mem_cons_of_mem b0 hb)
      · rintro ⟨_, h1⟩
        exact absurd (h b1 (List.mem_cons_of_mem b0 (List.mem_cons_self b1 bs)))
          (not_lt.mpr h1)

/-- Claim C1, as stated, is false on the code: the binnings place a boundary
value into the lower of the two adjacent bins, but they do not follow a
closed-left/open-right (inclusive-left) convention.  At additional-spend
exactly `100` the code produces the lower bin `Basic`, while an
inclusive-left binning over the same breakpoints would produce the upper
bin `Standard`. -/
theorem c1_counterexample :
    cutValue valueTierBins valueTierLabels 100 = some "Basic" ∧
    cutValueLeftClosed valueTierBins valueTierLabels 100 = some "Standard" ∧
    cutValue valueTierBins valueTierLabels 100 ≠
      cutValueLeftClosed valueTierBins valueTierLabels 100 := by
  decide

/-- Claim C1 (amended): for each of the three binnings, a value exactly
equal to an interior breakpoint is deterministically placed into the lower
of the two adjacent bins, per the open-left/closed-right (inclusive-right)
convention of `pd.cut`. -/
theorem c1_interior_breakpoints_lower_bin :
    cutValue valueTierBins valueTierLabels 100 = some "Basic" ∧
    cutValue valueTierBins valueTierLabels 200 = some "Standard" ∧
    cutValue valueTierBins valueTierLabels 300 = some "Premium" ∧
    cutValue activityBins activityLabels 1 = some "Low" ∧
    cutValue activityBins activityLabels 2 = some "Moderate" ∧
    cutValue activityBins activityLabels 3 = some "High" ∧
    cutValue tenureBins tenureLabels 3 = some "New (0-3m)" ∧
    cutValue tenureBins tenureLabels 6 = some "Developing (3-6m)" ∧
    cutValue tenureBins tenureLabels 12 = some "Established (6-12m)" := by
  decide

/-- Claim C3: for each binning, a value exactly at the upper bound of the
full breakpoint range (600, 10, 50) lands in the top bin, and a value
strictly outside all breakpoints (below the lowest or above the highest)
yields a missing band. -/
theorem c3_full_range_edges (x : ℚ) :
    cutValue valueTierBins valueTierLabels 600 = some "VIP" ∧
    cutValue activityBins activityLabels 10 = some "Super Active" ∧
    cutValue tenureBins tenureLabels 50 = some "Veteran (12m+)" ∧
    (x < 0 → cutValue valueTierBins valueTierLabels x = none ∧
      cutValue activityBins activityLabels x = none ∧
      cutValue tenureBins tenureLabels x = none) ∧
    (600 < x → cutValue valueTierBins valueTierLabels x = none) ∧
    (10 < x → cutValue activityBins activityLabels x = none) ∧
    (50 < x → cutValue tenureBins tenureLabels x = none) := by
  refine ⟨by decide, by decide, by decide, ?_, ?_, ?_, ?_⟩
  · intro hx
    refine ⟨cutValue_none_of_le x valueTierBins valueTierLabels ?_,
      cutValue_none_of_le x activityBins activityLabels ?_,
      cutValue_none_of_le x tenureBins tenureLabels ?_⟩ <;>
      (intro b hb
       first
       | simp [valueTierBins] at hb
       | simp [activityBins] at hb
       | simp [tenureBins] at hb
       rcases hb with rfl | rfl | rfl | rfl | rfl <;> linarith)
  · intro hx
    refine cutValue_none_of_gt x valueTierBins valueTierLabels ?_
    intro b hb
    simp [valueTierBins] at hb
    rcases hb with rfl | rfl | rfl | rfl | rfl <;> linarith
  · intro hx
    refine cutValue_none_of_gt x activityBins activityLabels ?_
    intro b hb
    simp [activityBins] at hb
    rcases hb with rfl | rfl | rfl | rfl | rfl <;> linarith
  · intro hx
    refine cutValue_none_of_gt x tenureBins tenureLabels ?_
    intro b hb
    simp [tenureBins] at hb
    rcases hb with rfl | rfl | rfl | rfl | rfl <;> linarith

/-- Witness for C3 at the concrete inputs `-1` (below every breakpoint)
and `600` (upper bound of the full range). -/
theorem c3_full_range_edges_witness :
    cutValue valueTierBins valueTierLabels (-1) = none ∧
    cutValue valueTierBins valueTierLabels 600 = some "VIP" :=
  ⟨((c3_full_range_edges (-1)).2.2.2.1 (by norm_num)).1,
   (c3_full_range_edges (-1)).1⟩

/-- Claim C9: the four synthetic confusion-matrix cells built from the
hard-coded literals are nonnegative integers and sum exactly to the assumed
total of 1000. -/
theorem c9_confusion_matrix_cells :
    0 ≤ true_negative ∧ 0 ≤ false_positive ∧ 0 ≤ false_negative ∧
    0 ≤ true_positive ∧
    true_negative + false_positive + false_negative + true_positive =
      total_test ∧
    total_test = 1000 := by
  norm_num [true_negative, false_positive, false_negative, true_positive,
    predicted_churn, actual_churn, total_test, pyInt]

/-- Claim C10: the five configured cluster weights sum exactly to `1` as
rationals, so the invalid-probability error branch of the categorical draw
is unreachable for every input table size and sample stream. -/
theorem c10_weights_sum_one_draw_never_errors :
    clusterProbs.sum = 1 ∧
    ∀ (n : ℕ) (stream : ℕ → ℚ),
      npRandomChoice clusterKeys n clusterProbs stream =
        Except.ok ((List.range n).map fun i => drawnCluster stream i) :=
  ⟨clusterProbs_sum_eq_one, npRandomChoice_clusterProbs⟩

/-- Cells of a band column built by mapping `pd.cut` are a valid label or
missing. -/
lemma mem_map_catCell_cut (bins : List ℚ) (labels : List String)
    (xs : List ℚ) (c : Cell)
    (hc : c ∈ (xs.map (cutValue bins labels)).map catCell) :
    c = Cell.missing ∨ ∃ l ∈ labels, c = Cell.cat l := by
  obtain ⟨y, hy, rfl⟩ := List.mem_map.mp hc
  obtain ⟨x, hx, rfl⟩ := List.mem_map.mp hy
  rcases cutValue_mem bins labels x with hn | ⟨l, hl, hs⟩
  · exact Or.inl (by rw [hn]; rfl)
  · exact Or.inr ⟨l, hl, by rw [hs]; rfl⟩

/-- With a uniform sample in `[0,1)` the inverse-cdf pick over the five
configured weights is an index below `5`. -/
lemma weightedPick_clusterProbs_lt (u : ℚ) (_h0 : 0 ≤ u) (h1 : u < 1) :
    weightedPick clusterProbs u < 5 := by
  simp only [clusterProbs, cluster_probabilities, List.map_cons, List.map_nil,
    weightedPick]
  split_ifs <;> norm_num
  linarith

/-- With a uniform sample stream every drawn cluster id is below `5`. -/
lemma drawnCluster_lt (stream : ℕ → ℚ) (hu : UniformStream stream) (i : ℕ) :
    drawnCluster stream i < 5 := by
  have hb := weightedPick_clusterProbs_lt (stream i) (hu i).1 (hu i).2
  unfold drawnCluster
  set n := weightedPick clusterProbs (stream i) with hn
  interval_cases n <;> decide

/-- The archetype lookup succeeds with a non-empty name on every id below
`5`. -/
lemma archetype_lookup_lt (k : ℕ) (hk : k < 5) :
    ∃ s, archetype_names.lookup k = some s ∧ s ≠ "" := by
  interval_cases k <;> exact ⟨_, rfl, by decide⟩

/-- Claim C2: in any successfully prepared table, every cell of each of the
three derived band columns is either one of that band's four labels or
explicitly missing; no other label value is ever produced. -/
theorem c2_band_labels (stream : ℕ → ℚ) (lr : Except String Table)
    (p : Prepared) (names : List (ℕ × String))
    (h : load_and_prepare_data stream lr = some (p, names)) :
    (∀ cells, p.addedCol "customer_value_tier" = some cells →
      ∀ c ∈ cells, c = Cell.missing ∨ ∃ l ∈ valueTierLabels, c = Cell.cat l) ∧
    (∀ cells, p.addedCol "activity_level" = some cells →
      ∀ c ∈ cells, c = Cell.missing ∨ ∃ l ∈ activityLabels, c = Cell.cat l) ∧
    (∀ cells, p.addedCol "tenure_category" = some cells →
      ∀ c ∈ cells, c = Cell.missing ∨ ∃ l ∈ tenureLabels, c = Cell.cat l) := by
  obtain ⟨df, charges, freq, life, hlr, hc1, hc2, hc3, hnames, hp⟩ :=
    prepare_ok_structure stream lr p names h
  subst hp
  refine ⟨?_, ?_, ?_⟩ <;> intro cells hcells c hc <;>
    simp +decide [Prepared.addedCol, List.lookup] at hcells <;>
    subst hcells <;> rw [← List.map_map] at hc
  · exact mem_map_catCell_cut valueTierBins valueTierLabels charges c hc
  · exact mem_map_catCell_cut activityBins activityLabels freq c hc
  · exact mem_map_catCell_cut tenureBins tenureLabels life c hc

/-- Witness for C2 on the concrete run over `testTableB`, whose activity
column holds a missing cell (attendance `0` is outside all bins). -/
theorem c2_band_labels_witness :
    Cell.missing = Cell.missing ∨
      ∃ l ∈ activityLabels, Cell.missing = Cell.cat l :=
  (c2_band_labels testStream (Except.ok testTableB) testPreparedB
      archetype_names load_testTableB).2.1
    [Cell.missing, Cell.cat "Low"] (by decide) Cell.missing (by decide)

/-- Claim C4: the archetype lookup is total and injective over cluster ids
`0..4`, each name is non-empty, and on any successfully prepared table with
a uniform sample stream every assigned cluster id is in `{0..4}` and every
archetype cell is a defined (non-missing) name. -/
theorem c4_archetype_lookup_total_injective :
    (∀ i, i < 5 → ∃ s, archetype_names.lookup i = some s ∧ s ≠ "") ∧
    (∀ i j, i < 5 → j < 5 →
      archetype_names.lookup i = archetype_names.lookup j → i = j) ∧
    (∀ (stream : ℕ → ℚ) (lr : Except String Table) (p : Prepared)
        (names : List (ℕ × String)), UniformStream stream →
      load_and_prepare_data stream lr = some (p, names) →
      (∀ cells, p.addedCol "Cluster" = some cells →
        ∀ c ∈ cells, ∃ k : ℕ, k < 5 ∧ c = Cell.num k) ∧
      (∀ cells, p.addedCol "Archetype" = some cells →
        ∀ c ∈ cells, ∃ s, s ≠ "" ∧ c = Cell.cat s)) := by
  refine ⟨archetype_lookup_lt, ?_, ?_⟩
  · intro i j hi hj hij
    interval_cases i <;> interval_cases j <;>
      first | rfl | exact absurd hij (by decide)
  · intro stream lr p names hu h
    obtain ⟨df, charges, freq, life, hlr, hc1, hc2, hc3, hnames, hp⟩ :=
      prepare_ok_structure stream lr p names h
    subst hp
    constructor
    · intro cells hcells c hc
      simp +decide [Prepared.addedCol, List.lookup] at hcells
      subst hcells
      rw [← List.map_map] at hc
      obtain ⟨k, hk, rfl⟩ := List.mem_map.mp hc
      obtain ⟨i, hi, rfl⟩ := List.mem_map.mp hk
      exact ⟨drawnCluster stream i, drawnCluster_lt stream hu i, rfl⟩
    · intro cells hcells c hc
      simp +decide [Prepared.addedCol, List.lookup] at hcells
      subst hcells
      rw [← List.map_map, ← List.map_map] at hc
      obtain ⟨y, hy, rfl⟩ := List.mem_map.mp hc
      obtain ⟨k, hk, rfl⟩ := List.mem_map.mp hy
      obtain ⟨i, hi, rfl⟩ := List.mem_map.mp hk
      have hlt := drawnCluster_lt stream hu i
      set k := drawnCluster stream i with hkdef
      interval_cases k <;> exact ⟨_, by decide, rfl⟩

/-- Witness for C4 on the concrete run over `testTable` with the
constant-zero sample stream. -/
theorem c4_archetype_lookup_total_injective_witness :
    ∃ k : ℕ, k < 5 ∧ Cell.num 0 = Cell.num k :=
  ((c4_archetype_lookup_total_injective.2.2 testStream (Except.ok testTable)
      testPrepared archetype_names (fun _ => by norm_num [testStream])
      load_testTable).1
    [Cell.num 0, Cell.num 0] (by decide) (Cell.num 0) (by decide))

/-- Claim C5: with the seed fixed (one shared sample stream), any two
successful runs on tables of the same row count produce the identical
cluster-id column, and the cluster column is exactly the row-indexed
sequence of draws from the fixed weights — a function of the stream and row
index alone, never of the row's other columns. -/
theorem c5_cluster_determinism_independence :
    (∀ (stream : ℕ → ℚ) (lr1 lr2 : Except String Table)
        (p1 p2 : Prepared) (n1 n2 : List (ℕ × String)),
      load_and_prepare_data stream lr1 = some (p1, n1) →
      load_and_prepare_data stream lr2 = some (p2, n2) →
      p1.base.nRows = p2.base.nRows →
      p1.addedCol "Cluster" = p2.addedCol "Cluster") ∧
    (∀ (stream : ℕ → ℚ) (lr : Except String Table) (p : Prepared)
        (names : List (ℕ × String)),
      load_and_prepare_data stream lr = some (p, names) →
      p.addedCol "Cluster" =
        some (((List.range p.base.nRows).map fun i => drawnCluster stream i).map
          fun (c : ℕ) => Cell.num (c : ℚ))) := by
  have key : ∀ (stream : ℕ → ℚ) (lr : Except String Table) (p : Prepared)
      (names : List (ℕ × String)),
      load_and_prepare_data stream lr = some (p, names) →
      p.addedCol "Cluster" =
        some (((List.range p.base.nRows).map fun i => drawnCluster stream i).map
          fun (c : ℕ) => Cell.num (c : ℚ)) := by
    intro stream lr p names h
    obtain ⟨df, charges, freq, life, hlr, hc1, hc2, hc3, hnames, hp⟩ :=
      prepare_ok_structure stream lr p names h
    subst hp
    simp +decide [Prepared.addedCol, List.lookup]
  refine ⟨?_, key⟩
  intro stream lr1 lr2 p1 p2 n1 n2 h1 h2 hrows
  rw [key stream lr1 p1 n1 h1, key stream lr2 p2 n2 h2, hrows]

/-- Witness for C5: `testTable` and `testTableB` differ in every column but
have the same row count, and the runs yield identical cluster columns. -/
theorem c5_cluster_determinism_independence_witness :
    testPrepared.addedCol "Cluster" = testPreparedB.addedCol "Cluster" :=
  c5_cluster_determinism_independence.1 testStream
    (Except.ok testTable) (Except.ok testTableB) testPrepared testPreparedB
    archetype_names archetype_names load_testTable load_testTableB rfl

/-- Claim C8, as stated, is false on the code: the feature deriver appends
five new columns, not four, as the run on `testTable` shows. -/
theorem c8_counterexample :
    (load_and_prepare_data testStream (Except.ok testTable)).map
        (fun pr => pr.1.added.map Prod.fst) = some addedColumnNames ∧
    addedColumnNames.length = 5 ∧ ¬ addedColumnNames.length = 4 := by
  rw [load_testTable]
  refine ⟨?_, by decide, by decide⟩
  simp +decide [testPrepared, addedColumnNames]

/-- Claim C8 (amended): the feature deriver produces an augmented table with
five new columns — value tier, activity level, tenure category, cluster id,
and archetype display name — appended in place, and leaves every
pre-existing column of the loaded table unchanged. -/
theorem c8_five_columns_appended (stream : ℕ → ℚ) (df : Table)
    (p : Prepared) (names : List (ℕ × String))
    (h : load_and_prepare_data stream (Except.ok df) = some (p, names)) :
    p.base = df ∧ p.added.map Prod.fst = addedColumnNames ∧
    names = archetype_names := by
  obtain ⟨df2, charges, freq, life, hlr, hc1, hc2, hc3, hnames, hp⟩ :=
    prepare_ok_structure stream (Except.ok df) p names h
  cases hlr
  subst hp
  exact ⟨rfl, by simp [addedColumnNames], hnames⟩

/-- Witness for the amended C8 on the concrete run over `testTable`. -/
theorem c8_five_columns_appended_witness :
    testPrepared.base = testTable ∧
    testPrepared.added.map Prod.fst = addedColumnNames ∧
    archetype_names = archetype_names :=
  c8_five_columns_appended testStream testTable testPrepared archetype_names
    load_testTable

/-- Claim C6: a load or derivation failure is caught (the loader returning
the no-data sentinel, with an error value recording the message), a table
lacking the `Lifetime` column is such a failure, and the coordinator then
emits only the failure message — no chart builder is ever attempted. -/
theorem c6_load_failure_aborts :
    (∀ (stream : ℕ → ℚ) (msg : String) (r1 r2 r3 : Except String Unit),
      load_and_prepare_data stream (Except.error msg) = none ∧
      main stream (Except.error msg) r1 r2 r3 = [Event.loadFailedMsg]) ∧
    (∀ (stream : ℕ → ℚ) (df : Table), df.cols.lookup "Lifetime" = none →
      load_and_prepare_data stream (Except.ok df) = none ∧
      ∃ e, prepareResult stream (Except.ok df) = Except.error e) ∧
    (∀ (stream : ℕ → ℚ) (lr : Except String Table)
        (r1 r2 r3 : Except String Unit),
      load_and_prepare_data stream lr = none →
      main stream lr r1 r2 r3 = [Event.loadFailedMsg] ∧
      Event.chart1 ∉ main stream lr r1 r2 r3 ∧
      Event.chart2 ∉ main stream lr r1 r2 r3 ∧
      Event.chart3 ∉ main stream lr r1 r2 r3) := by
  refine ⟨?_, ?_, ?_⟩
  · intro stream msg r1 r2 r3
    have hnone : load_and_prepare_data stream (Except.error msg) = none := by
      simp [load_and_prepare_data, prepareResult]
    exact ⟨hnone, by simp [main, hnone]⟩
  · intro stream df hdf
    have hl : getCol df "Lifetime" =
        Except.error ("KeyError: " ++ "Lifetime") := by
      simp [getCol, hdf]
    have herr : ∃ e, prepareResult stream (Except.ok df) = Except.error e := by
      rw [prepareResult]
      cases hc1 : getCol df "Avg_additional_charges_total" with
      | error e => exact ⟨e, by simp [hc1]⟩
      | ok charges =>
        cases hc2 : getCol df "Avg_class_frequency_current_month" with
        | error e => exact ⟨e, by simp [hc1, hc2]⟩
        | ok freq =>
            exact ⟨"KeyError: " ++ "Lifetime", by simp [hc1, hc2, hl]⟩
    obtain ⟨e, he⟩ := herr
    exact ⟨by simp [load_and_prepare_data, he], e, he⟩
  · intro stream lr r1 r2 r3 hnone
    simp [main, hnone]

/-- Witness for C6 on the concrete table lacking the `Lifetime` column. -/
theorem c6_load_failure_aborts_witness :
    load_and_prepare_data testStream (Except.ok testTableNoLifetime) = none ∧
    main testStream (Except.ok testTableNoLifetime)
      (Except.ok ()) (Except.ok ()) (Except.ok ()) = [Event.loadFailedMsg] := by
  have hnone :=
    (c6_load_failure_aborts.2.1 testStream testTableNoLifetime (by decide)).1
  exact ⟨hnone,
    (c6_load_failure_aborts.2.2 testStream (Except.ok testTableNoLifetime)
      (Except.ok ()) (Except.ok ()) (Except.ok ()) hnone).1⟩

/-- Claim C7: one outer catch with no per-builder isolation — a failure of
the second builder means the third is never attempted; and in every case
`main` yields a trace that either completes fully or ends in a reported
error message, never propagating the failure. -/
theorem c7_single_outer_catch (r1 r2 r3 : Except String Unit) :
    (∀ (e : String) (r3b : Except String Unit),
      chartPhase (Except.ok ()) (Except.error e) r3b =
        [Event.chart1, Event.chart2, Event.errorMsg e] ∧
      Event.chart3 ∉ chartPhase (Except.ok ()) (Except.error e) r3b) ∧
    (Event.chart3 ∈ chartPhase r1 r2 r3 →
      r1 = Except.ok () ∧ r2 = Except.ok ()) ∧
    (∀ (stream : ℕ → ℚ) (lr : Except String Table),
      (∃ e, Event.errorMsg e ∈ main stream lr r1 r2 r3) ∨
      main stream lr r1 r2 r3 = [Event.loadFailedMsg] ∨
      main stream lr r1 r2 r3 =
        [Event.chart1, Event.chart2, Event.chart3, Event.successMsg]) := by
  refine ⟨?_, ?_, ?_⟩
  · intro e r3b
    exact ⟨rfl, by simp [chartPhase]⟩
  · intro hmem
    rcases r1 with e1 | ⟨⟩
    · simp [chartPhase] at hmem
    · rcases r2 with e2 | ⟨⟩
      · simp [chartPhase] at hmem
      · exact ⟨rfl, rfl⟩
  · intro stream lr
    rcases hload : load_and_prepare_data stream lr with _ | pr
    · exact Or.inr (Or.inl (by simp [main, hload]))
    · rcases r1 with e1 | ⟨⟩
      · exact Or.inl ⟨e1, by simp [main, hload, chartPhase]⟩
      · rcases r2 with e2 | ⟨⟩
        · exact Or.inl ⟨e2, by simp [main, hload, chartPhase]⟩
        · rcases r3 with e3 | ⟨⟩
          · exact Or.inl ⟨e3, by simp [main, hload, chartPhase]⟩
          · exact Or.inr (Or.inr (by simp [main, hload, chartPhase]))

/-- Witness for C7 at a concrete failing second builder and a concrete full
trace containing the third builder. -/
theorem c7_single_outer_catch_witness :
    (chartPhase (Except.ok ()) (Except.error "boom") (Except.ok ()) =
      [Event.chart1, Event.chart2, Event.errorMsg "boom"] ∧
     Event.chart3 ∉ chartPhase (Except.ok ()) (Except.error "boom")
       (Except.ok ())) ∧
    (Except.ok () : Except String Unit) = Except.ok () ∧
    (Except.ok () : Except String Unit) = Except.ok () :=
  ⟨(c7_single_outer_catch (Except.ok ()) (Except.ok ()) (Except.ok ())).1
      "boom" (Except.ok ()),
   (c7_single_outer_catch (Except.ok ()) (Except.ok ())
      (Except.ok ())).2.1 (by decide)⟩

end BusinessCharts
